import Mathlib

/-!
Shallow embedding of `src/sayn/database/bigquery.py` (the SAYN BigQuery
database driver).  The reconciliation-relevant parts of the module are
translated faithfully:

* `fully_qualify` (lines 282-283): qualified-name composition.
* `Bigquery.feature` (lines 85-90): capability membership test.
* `Bigquery.create_table` (lines 226-279): drop-decision and script assembly.
  The Jinja template renderer (`create_table.sql`, external to the module) is
  modelled as an opaque function `render : RenderArgs → String` receiving
  exactly the keyword arguments the source passes to `template.render`.
* `Bigquery.move_table` (lines 212-224).
* `Bigquery._introspect` (lines 117-170): catalog introspection.  The catalog
  itself (`self.read_data(query)`) is modelled as an opaque function from a
  resolved dataset name and the requested object names to structured rows,
  mirroring the columns the SQL query selects.  The list of
  `(resolved dataset, objects)` pairs actually queried is returned alongside
  the result so that "a catalog query was issued" is statable.
* `DDL.columns_unique` (lines 44-50) and `DDL.validate_properties`
  (lines 52-62): pydantic validators.  Python exceptions are modelled with
  `Except`, carrying the computed offending set as structured data instead of
  a formatted message.
-/

namespace Sayn

/-- A declared column of the desired model (`Columns` with only the parts the
validators inspect: its `name`; `type` is kept for the typed-column count in
`create_table`). -/
structure Column where
  name : String
  deriving DecidableEq

/-- A column entry of the `columns` keyword argument reaching `create_table`
(a mapping with optional `type`, cf. line 274). -/
structure DdlCol where
  name : String
  type : Option String
  deriving DecidableEq

/-- The keyword arguments (`**ddl`) reaching `create_table` that the function
itself inspects: `partition`, `cluster` and `columns` (lines 252-253, 274). -/
structure DdlArgs where
  partition : Option String
  cluster : Option (List String)
  columns : List DdlCol
  deriving DecidableEq

/-- One entry of `self._requested_objects[schema]`: the introspected state of
a database object.  `type` is `some "table"`, `some "view"` or `none`
(unknown); the `partition` and `cluster` fields are `none` when the
corresponding dictionary key is absent (lines 147-170). -/
structure DbInfo where
  type : Option String
  partition : Option String
  cluster : Option (List String)
  deriving DecidableEq

/-- `db_info = dict()` of line 246: an empty entry, every lookup defaulting. -/
def emptyDbInfo : DbInfo := ⟨none, none, none⟩

/-- `fully_qualify` (lines 282-283): prepend `schema + "."` exactly when
`schema is not None`. -/
def fully_qualify (name : String) (schema : Option String) : String :=
  (match schema with
    | some s => s ++ "."
    | none => "") ++ name

/-- `Bigquery.feature` (lines 85-90): membership in the fixed tuple of
declared capabilities. -/
def feature (f : String) : Bool :=
  f == "CAN REPLACE TABLE" || f == "CAN REPLACE VIEW" || f == "CANNOT CHANGE SCHEMA"

/-- The keyword arguments `create_table` passes to `template.render`
(lines 263-276). -/
structure RenderArgs where
  table_name : String
  full_name : String
  view_exists : Bool
  table_exists : Bool
  select : Option String
  replace : Bool
  can_replace_table : Bool
  needs_cascade : Bool
  cannot_specify_ddl_select : Bool
  all_columns_have_type : Nat
  ddl : DdlArgs

/-- `table_exists` of lines 241/247: from the introspected type when the
object was requested, vacuously `true` otherwise. -/
def tableExists (requested : Option DbInfo) : Bool :=
  match requested with
  | some info => info.type == some "table"
  | none => true

/-- `view_exists` of lines 242/248. -/
def viewExists (requested : Option DbInfo) : Bool :=
  match requested with
  | some info => info.type == some "view"
  | none => true

/-- The drop-decision of `create_table` (lines 235-260): compare the desired
cluster set and partition string against the introspected ones and emit an
empty string, a `DROP TABLE IF EXISTS`, or a `DROP VIEW IF EXISTS`.
`requested` is the lookup `self._requested_objects[schema][table]`
(`none` when the pair of keys is absent). -/
def dropStatement (requested : Option DbInfo) (full_name : String) (ddl : DdlArgs) : String :=
  if (ddl.cluster.getD []).toFinset = ((requested.getD emptyDbInfo).cluster.getD []).toFinset ∧
      ddl.partition.getD "" = (requested.getD emptyDbInfo).partition.getD "" then
    ""
  else if (requested.getD emptyDbInfo).type = some "table" then
    "DROP TABLE IF EXISTS " ++ full_name ++ ";\n"
  else
    "DROP VIEW IF EXISTS " ++ full_name ++ ";\n"

/-- The keyword arguments of the `template.render` call (lines 263-276);
`replace` is passed as the literal `True` regardless of the caller-supplied
argument. -/
def renderArgs (requested : Option DbInfo) (table : String) (schema : Option String)
    (select : Option String) (ddl : DdlArgs) : RenderArgs :=
  { table_name := table
    full_name := fully_qualify table schema
    view_exists := viewExists requested
    table_exists := tableExists requested
    select := select
    replace := true
    can_replace_table := feature "CAN REPLACE TABLE"
    needs_cascade := feature "NEEDS CASCADE"
    cannot_specify_ddl_select := feature "CANNOT SPECIFY DDL IN SELECT"
    all_columns_have_type := (ddl.columns.filter fun c => c.type.isSome).length
    ddl := ddl }

/-- `Bigquery.create_table` (lines 226-279): the drop statement prefixed to
the rendered create statement (line 278, `query = drop + query`). -/
def create_table (render : RenderArgs → String) (requested : Option DbInfo)
    (table : String) (schema : Option String) (select : Option String)
    (replace : Bool) (ddl : DdlArgs) : String :=
  dropStatement requested (fully_qualify table schema) ddl ++
    render (renderArgs requested table schema select ddl)

/-- `Bigquery.move_table` (lines 212-224): create the destination from a
`SELECT *` over the source (with `replace=True`), then drop the source,
joined by a blank line. -/
def move_table (render : RenderArgs → String) (requested : Option DbInfo)
    (src_table dst_table : String) (src_schema dst_schema : Option String)
    (ddl : DdlArgs) : String :=
  create_table render requested dst_table dst_schema
      (some ("SELECT * FROM " ++ fully_qualify src_table src_schema)) true ddl ++
    "\n\n" ++ ("DROP TABLE " ++ fully_qualify src_table src_schema)

/-- Helper: prepending the empty string is the identity. -/
theorem empty_append_str (s : String) : "" ++ s = s := by
  cases s
  rfl

/-- Claim C1: when the desired cluster column set equals the introspected one
and the desired partition (empty string when absent) equals the introspected
partition column (empty string when absent), `create_table` emits no DROP
statement: the drop statement is empty and the script is the rendered create
statement alone (lines 252-256, 278). -/
theorem create_table_noop_no_drop (render : RenderArgs → String) (info : DbInfo)
    (table : String) (schema select : Option String) (replace : Bool) (ddl : DdlArgs)
    (hc : (ddl.cluster.getD []).toFinset = (info.cluster.getD []).toFinset)
    (hp : ddl.partition.getD "" = info.partition.getD "") :
    dropStatement (some info) (fully_qualify table schema) ddl = "" ∧
    create_table render (some info) table schema select replace ddl =
      render (renderArgs (some info) table schema select ddl) := by
  have hd : dropStatement (some info) (fully_qualify table schema) ddl = "" := by
    simp [dropStatement, hc, hp]
  refine ⟨hd, ?_⟩
  show dropStatement (some info) (fully_qualify table schema) ddl ++
      render (renderArgs (some info) table schema select ddl) =
    render (renderArgs (some info) table schema select ddl)
  rw [hd]
  exact empty_append_str _

/-- Witness for C1 at a concrete no-op reconciliation. -/
theorem create_table_noop_no_drop_witness :
    dropStatement (some ⟨some "view", some "ts", some ["a"]⟩)
        (fully_qualify "t" (some "ds")) ⟨some "ts", some ["a"], []⟩ = "" :=
  (create_table_noop_no_drop (fun _ => "C") ⟨some "view", some "ts", some ["a"]⟩
    "t" (some "ds") none false ⟨some "ts", some ["a"], []⟩ (by decide) (by decide)).1

/-- Claim C2: on a partition or cluster mismatch, the drop statement targets a
table exactly when the introspected type is `"table"`, and a view in every
other case (type `"view"`, unknown type, or an entry absent from
`_requested_objects` altogether); the embedding is a total function, so
reconciling against an unknown-kind entry always produces a script
(lines 255-260, 278). -/
theorem create_table_drop_kind (requested : Option DbInfo) (table : String)
    (schema : Option String) (ddl : DdlArgs)
    (hm : ¬((ddl.cluster.getD []).toFinset =
              ((requested.getD emptyDbInfo).cluster.getD []).toFinset ∧
            ddl.partition.getD "" = (requested.getD emptyDbInfo).partition.getD "")) :
    ((requested.getD emptyDbInfo).type = some "table" →
      dropStatement requested (fully_qualify table schema) ddl =
        "DROP TABLE IF EXISTS " ++ fully_qualify table schema ++ ";\n") ∧
    (¬(requested.getD emptyDbInfo).type = some "table" →
      dropStatement requested (fully_qualify table schema) ddl =
        "DROP VIEW IF EXISTS " ++ fully_qualify table schema ++ ";\n") ∧
    (∀ (render : RenderArgs → String) (select : Option String) (replace : Bool),
      create_table render requested table schema select replace ddl =
        dropStatement requested (fully_qualify table schema) ddl ++
          render (renderArgs requested table schema select ddl)) := by
  refine ⟨fun ht => ?_, fun ht => ?_, fun _ _ _ => rfl⟩ <;>
    simp [dropStatement, hm, ht]

/-- Witness for C2: an unknown-kind entry with a partition mismatch takes the
view-drop branch. -/
theorem create_table_drop_kind_witness :
    dropStatement (some ⟨none, none, none⟩) (fully_qualify "t" none)
        ⟨some "ts", none, []⟩ =
      "DROP VIEW IF EXISTS " ++ fully_qualify "t" none ++ ";\n" :=
  (create_table_drop_kind (some ⟨none, none, none⟩) "t" none ⟨some "ts", none, []⟩
    (by decide)).2.1 (by decide)

/-- Claim C3 counterexample: the drop and create statements of a
`create_table` script are separated by a single newline (the trailing
`";\n"` of the drop string, line 258/260), not by a blank line. -/
theorem create_table_sep_not_blank_line :
    create_table (fun _ => "C") (some ⟨none, none, none⟩) "t" none none false
        ⟨some "ts", none, []⟩ =
      "DROP VIEW IF EXISTS t;\nC" ∧
    "DROP VIEW IF EXISTS t;\nC" ≠ "DROP VIEW IF EXISTS t;" ++ "\n\n" ++ "C" := by
  refine ⟨by decide, by decide⟩

/-- Claim C3 amended: whenever a drop is emitted the script is the drop
statement immediately followed by the create statement — the drop strictly
first — where the drop statement is one of the two `DROP ... IF EXISTS`
forms terminated by a semicolon and a single newline; the blank-line join
occurs in `move_table`, between the create script and the source-table drop
(line 224). -/
theorem create_table_drop_first_single_newline (render : RenderArgs → String)
    (requested : Option DbInfo) (src_table table : String)
    (src_schema schema select : Option String) (replace : Bool) (ddl : DdlArgs)
    (h : dropStatement requested (fully_qualify table schema) ddl ≠ "") :
    create_table render requested table schema select replace ddl =
      dropStatement requested (fully_qualify table schema) ddl ++
        render (renderArgs requested table schema select ddl) ∧
    (dropStatement requested (fully_qualify table schema) ddl =
        "DROP TABLE IF EXISTS " ++ fully_qualify table schema ++ ";\n" ∨
      dropStatement requested (fully_qualify table schema) ddl =
        "DROP VIEW IF EXISTS " ++ fully_qualify table schema ++ ";\n") ∧
    move_table render requested src_table table src_schema schema ddl =
      create_table render requested table schema
          (some ("SELECT * FROM " ++ fully_qualify src_table src_schema)) true ddl ++
        "\n\n" ++ ("DROP TABLE " ++ fully_qualify src_table src_schema) := by
  refine ⟨rfl, ?_, rfl⟩
  by_cases hc : (ddl.cluster.getD []).toFinset =
      ((requested.getD emptyDbInfo).cluster.getD []).toFinset ∧
    ddl.partition.getD "" = (requested.getD emptyDbInfo).partition.getD ""
  · exact absurd (by simp [dropStatement, hc]) h
  · by_cases ht : (requested.getD emptyDbInfo).type = some "table"
    · exact Or.inl (by simp [dropStatement, hc, ht])
    · exact Or.inr (by simp [dropStatement, hc, ht])

/-- Witness for the amended C3 at a concrete mismatch. -/
theorem create_table_drop_first_single_newline_witness :
    dropStatement (some ⟨none, none, none⟩) (fully_qualify "t" none)
        ⟨some "ts", none, []⟩ =
      "DROP TABLE IF EXISTS " ++ fully_qualify "t" none ++ ";\n" ∨
    dropStatement (some ⟨none, none, none⟩) (fully_qualify "t" none)
        ⟨some "ts", none, []⟩ =
      "DROP VIEW IF EXISTS " ++ fully_qualify "t" none ++ ";\n" :=
  (create_table_drop_first_single_newline (fun _ => "C") (some ⟨none, none, none⟩)
    "s" "t" none none none false ⟨some "ts", none, []⟩ (by decide)).2.1

/-- Claim C5 counterexample: an empty-string namespace is not treated like an
absent one — `fully_qualify` only tests `schema is not None` (line 283), so
an empty-string schema yields a leading dot. -/
theorem fully_qualify_empty_schema_counterexample :
    fully_qualify "t" (some "") = ".t" ∧ ".t" ≠ "t" :=
  ⟨rfl, by decide⟩

/-- Claim C5 amended: the qualified name is `namespace ++ "." ++ objectName`
whenever the namespace is present — including the empty string — and the
object name alone only when the namespace is absent; no quoting or escaping
is performed. -/
theorem fully_qualify_spec (name s : String) :
    fully_qualify name (some s) = (s ++ ".") ++ name ∧
    fully_qualify name none = name :=
  ⟨rfl, empty_append_str name⟩

/-- Claim C6 counterexample: `feature` silently returns `false` for a name
outside the declared capability tuple; `"NEEDS CASCADE"` is even queried by
`create_table` itself (line 271) and silently yields `false`, with no
failure. -/
theorem feature_unknown_silent_false :
    feature "NEEDS CASCADE" = false ∧
    "NEEDS CASCADE" ∉ ["CAN REPLACE TABLE", "CAN REPLACE VIEW", "CANNOT CHANGE SCHEMA"] ∧
    (renderArgs none "t" none none ⟨none, none, []⟩).needs_cascade = false := by
  refine ⟨by decide, by decide, by decide⟩

/-- Claim C6 amended: the capability query is a plain membership test — it
returns `true` exactly for the three declared capability names and silently
returns `false` for every other name (lines 85-90). -/
theorem feature_iff (f : String) :
    feature f = true ↔
      f = "CAN REPLACE TABLE" ∨ f = "CAN REPLACE VIEW" ∨ f = "CANNOT CHANGE SCHEMA" := by
  simp [feature, or_assoc]

/-- Decidable equality for `Except`, for evaluating validator results on
concrete inputs. -/
instance {ε α : Type} [DecidableEq ε] [DecidableEq α] : DecidableEq (Except ε α) := fun x y =>
  match x, y with
  | Except.ok a, Except.ok b =>
    if h : a = b then Decidable.isTrue (by rw [h]) else Decidable.isFalse (by simp [h])
  | Except.error a, Except.error b =>
    if h : a = b then Decidable.isTrue (by rw [h]) else Decidable.isFalse (by simp [h])
  | Except.ok _, Except.error _ => Decidable.isFalse (by simp)
  | Except.error _, Except.ok _ => Decidable.isFalse (by simp)

/-- `DDL.columns_unique` (lines 44-50): collect every column name occurring
more than once (`Counter` membership with count above one) and fail with the
whole set when it is non-empty.  The Python `ValueError` message carries the
joined set; the embedding carries the set itself. -/
def columns_unique (v : List Column) : Except (Finset String) (List Column) :=
  if 0 < ((v.map fun c => c.name).toFinset.filter
      fun k => 1 < ((v.map fun c => c.name).count k)).card then
    Except.error ((v.map fun c => c.name).toFinset.filter
      fun k => 1 < ((v.map fun c => c.name).count k))
  else
    Except.ok v

/-- The `properties` sub-model of the BigQuery `DDL` (lines 23-28). -/
structure Properties where
  partition : Option String
  cluster : Option (List String)
  deriving DecidableEq

/-- The value of a field of `Properties`: `partition` is an optional string,
`cluster` an optional string list. -/
inductive FieldVal where
  | ostr : Option String → FieldVal
  | olist : Option (List String) → FieldVal
  deriving DecidableEq

/-- A Python value that can be an element of the set computed on line 56.
Iterating a pydantic v1 `BaseModel` yields `(field name, field value)`
tuples, so `set(v)` for `v : Properties` contains field pairs, while
`set([c.name for c in columns])` contains strings; the two element shapes
are never equal. -/
inductive PyVal where
  | pystr : String → PyVal
  | fieldPair : String → FieldVal → PyVal
  deriving DecidableEq

/-- `DDL.validate_properties` (lines 52-62), translated exactly as written:
when `cluster` is declared and at least one column is declared, it computes
`set(v) - set([c.name for c in columns])` — where `set(v)` iterates the
pydantic model `v` itself, yielding its two `(field name, value)` pairs —
and raises whenever that difference is non-empty.  (In CPython the
expression actually raises `TypeError` even earlier, because the
`("cluster", [...])` tuple holds an unhashable list; either way the intended
`set(v.cluster)` is never computed.) -/
def validate_properties (v : Option Properties) (columns : List Column) :
    Except (Finset PyVal) (Option Properties) :=
  match v with
  | none => Except.ok none
  | some p =>
    match p.cluster with
    | none => Except.ok v
    | some _ =>
      if 0 < columns.length then
        if 0 < (({PyVal.fieldPair "partition" (FieldVal.ostr p.partition),
              PyVal.fieldPair "cluster" (FieldVal.olist p.cluster)} : Finset PyVal) \
            (columns.map fun c => PyVal.pystr c.name).toFinset).card then
          Except.error (({PyVal.fieldPair "partition" (FieldVal.ostr p.partition),
              PyVal.fieldPair "cluster" (FieldVal.olist p.cluster)} : Finset PyVal) \
            (columns.map fun c => PyVal.pystr c.name).toFinset)
        else
          Except.ok v
      else
        Except.ok v

/-- Claim C4: the code contradicts the documented cluster-subset check.  At
the spec's own example — columns `["x","y"]`, cluster `["x","z"]` — the
validator fails, but the reported set is the model's two field pairs, not
the missing column set containing `"z"`; and on a valid input — columns
`["x","y"]`, cluster `["x"]`, a subset — the validator rejects instead of
accepting, because `set(v)` iterates the model's fields rather than
`v.cluster`. -/
theorem validate_properties_rejects_valid_cluster :
    validate_properties (some ⟨none, some ["x", "z"]⟩) [⟨"x"⟩, ⟨"y"⟩] =
      Except.error {PyVal.fieldPair "partition" (FieldVal.ostr none),
        PyVal.fieldPair "cluster" (FieldVal.olist (some ["x", "z"]))} ∧
    validate_properties (some ⟨none, some ["x"]⟩) [⟨"x"⟩, ⟨"y"⟩] ≠
      Except.ok (some ⟨none, some ["x"]⟩) := by
  refine ⟨by decide, by decide⟩

/-- Claim C7: whenever some column name repeats, `columns_unique` fails with
the set of all duplicated names — every name whose occurrence count exceeds
one — not just the first (lines 44-50). -/
theorem columns_unique_reports_all_dupes (v : List Column)
    (h : ∃ n : String, 1 < ((v.map fun c => c.name).count n)) :
    columns_unique v =
      Except.error ((v.map fun c => c.name).toFinset.filter
        fun k => 1 < ((v.map fun c => c.name).count k)) := by
  obtain ⟨n, hn⟩ := h
  have hmem : n ∈ (v.map fun c => c.name) :=
    List.count_pos_iff.mp (Nat.lt_of_lt_of_le Nat.zero_lt_one (Nat.le_of_lt hn))
  have hcard : 0 < ((v.map fun c => c.name).toFinset.filter
      fun k => 1 < ((v.map fun c => c.name).count k)).card := by
    refine Finset.card_pos.mpr ⟨n, ?_⟩
    simp [List.mem_toFinset.mpr hmem, hn]
  simp [columns_unique, hcard]

/-- Witness for C7 at the spec's example: columns `a,a,b,b,c` yield the
duplicate set containing exactly `a` and `b`. -/
theorem columns_unique_reports_all_dupes_witness :
    columns_unique [⟨"a"⟩, ⟨"a"⟩, ⟨"b"⟩, ⟨"b"⟩, ⟨"c"⟩] =
      Except.error {"a", "b"} := by
  rw [columns_unique_reports_all_dupes _ ⟨"a", by decide⟩]
  exact congrArg Except.error (by decide)

/-- One element of the `columns` array the introspection query aggregates per
object (lines 131-132): the column name, whether it is the partitioning
column, and its clustering ordinal (null when not clustered). -/
structure CatalogCol where
  column_name : String
  is_partition : Bool
  clustering_ordinal_position : Option Nat
  deriving DecidableEq

/-- One row of `read_data(query)` in `_introspect` (lines 129-141): object
name, raw catalog type string, and the per-column array. -/
structure CatalogRow where
  name : String
  type : String
  columns : List CatalogCol
  deriving DecidableEq

/-- The entry `_introspect` stores for one requested object (lines 147-170):
start from `{"type": None}`; when the object is among the returned rows
(dict-comprehension lookup, later rows overwriting earlier ones), map the raw
type, keep the last partitioning column, and record the names of the columns
with a non-null clustering ordinal — in row order — only when that list is
non-empty. -/
def introspectEntry (db_objects : List CatalogRow) (obj_name : String) : DbInfo :=
  match db_objects.reverse.find? (fun r => r.name == obj_name) with
  | none => ⟨none, none, none⟩
  | some db_object =>
    { type :=
        if db_object.type = "BASE TABLE" then some "table"
        else if db_object.type = "VIEW" then some "view"
        else none
      partition :=
        ((db_object.columns.filter fun c => c.is_partition).getLast?).map
          fun c => c.column_name
      cluster :=
        if ((db_object.columns.filter fun c => c.clustering_ordinal_position.isSome).map
            fun c => c.column_name) = [] then
          none
        else
          some ((db_object.columns.filter
            fun c => c.clustering_ordinal_position.isSome).map fun c => c.column_name) }

/-- The per-dataset result of `_introspect` (lines 147-170): every requested
object name receives an entry. -/
def introspectDataset (objects : List String) (rows : List CatalogRow) :
    List (String × DbInfo) :=
  objects.map fun o => (o, introspectEntry rows o)

/-- The `(resolved dataset name, requested objects)` pairs queried for one
project group: an empty dataset key resolves to the connection's default
dataset (lines 124-127) while the query itself targets the resolved name. -/
def datasetQueries (df : String) (datasets : List (String × List String)) :
    List (String × List String) :=
  datasets.map fun pr => (if pr.1 = "" then df else pr.1, pr.2)

/-- `Bigquery._introspect` (lines 117-170) over the ordered
`to_introspect` mapping `project key → dataset key → object names` (Python
dicts iterate in insertion order; a `None` dataset key is folded into the
empty string, which it is treated identically to on line 124).  For each
project group in turn: a non-empty project key raises (line 119-121, before
any query for that group); otherwise one catalog query per dataset is issued
and the per-object entries are built.  The first component of the result is
the trace of catalog queries issued before completion or failure; the second
is the outcome, keyed by the verbatim dataset keys. -/
def introspect (df : String) (catalog : String → List String → List CatalogRow) :
    List (String × List (String × List String)) →
      List (String × List String) ×
        Except String (List (String × List (String × DbInfo)))
  | [] => ([], Except.ok [])
  | (project, datasets) :: rest =>
    if project ≠ "" then
      ([], Except.error "3 level db objects are not currently supported")
    else
      (datasetQueries df datasets ++ (introspect df catalog rest).1,
        match (introspect df catalog rest).2 with
        | Except.ok results =>
          Except.ok
            ((datasets.map fun pr =>
              (pr.1, introspectDataset pr.2
                (catalog (if pr.1 = "" then df else pr.1) pr.2))) ++ results)
        | Except.error e => Except.error e)

/-- Helper: looking up a key in an association list built by pairing each
element of a list with a function of it. -/
theorem lookup_map_pair {β : Type} (f : String → β) :
    ∀ (l : List String) (o : String), o ∈ l →
      List.lookup o (l.map fun x => (x, f x)) = some (f o) := by
  intro l
  induction l with
  | nil => intro o ho; simp at ho
  | cons a t ih =>
    intro o ho
    by_cases h : o = a
    · subst h; simp [List.lookup]
    · have hmem : o ∈ t := by
        rcases List.mem_cons.mp ho with h1 | h1
        · exact absurd h1 h
        · exact h1
      have hba : (o == a) = false := beq_eq_false_iff_ne.mpr h
      simpa [List.lookup, hba] using ih o hmem

/-- Helper: filtering to the elements on which an option-valued function
succeeds does not change its `filterMap`. -/
theorem filterMap_filter_isSome {α β : Type} (f : α → Option β) :
    ∀ l : List α, (l.filter fun a => (f a).isSome).filterMap f = l.filterMap f := by
  intro l
  induction l with
  | nil => rfl
  | cons a t ih =>
    by_cases h : (f a).isSome = true
    · obtain ⟨b, hb⟩ := Option.isSome_iff_exists.mp h
      simp [List.filter_cons, h, List.filterMap_cons, hb, ih]
    · have hn : f a = none := Option.not_isSome_iff_eq_none.mp (by simpa using h)
      simp [List.filter_cons, h, List.filterMap_cons, hn, ih]

/-- Claim C8: every requested object name is a key of the per-dataset result;
an object matching no catalog row gets the default entry — unknown kind, no
partition column, no cluster list; and for an object found in the catalog the
cluster column list (empty when the key is absent) consists of exactly the
names of the columns with a non-null clustering ordinal, in row order — so
when the rows arrive with their non-null ordinals in ascending order, as the
issued query's ORDER BY within `array_agg` dictates, the list is ordered by
ascending ordinal (lines 147-170). -/
theorem introspect_dataset_complete (objects : List String) (rows : List CatalogRow)
    (o : String) (ho : o ∈ objects) :
    List.lookup o (introspectDataset objects rows) = some (introspectEntry rows o) ∧
    ((∀ r ∈ rows, r.name ≠ o) →
      introspectEntry rows o = ⟨none, none, none⟩) ∧
    (∀ r, rows.reverse.find? (fun row => row.name == o) = some r →
      (introspectEntry rows o).cluster.getD [] =
        ((r.columns.filter fun c => c.clustering_ordinal_position.isSome).map
          fun c => c.column_name) ∧
      (List.Sorted (· ≤ ·)
          (r.columns.filterMap fun c => c.clustering_ordinal_position) →
        List.Sorted (· ≤ ·)
          ((r.columns.filter fun c => c.clustering_ordinal_position.isSome).filterMap
            fun c => c.clustering_ordinal_position))) := by
  refine ⟨lookup_map_pair (fun x => introspectEntry rows x) objects o ho, ?_, ?_⟩
  · intro hnone
    have h0 : rows.reverse.find? (fun row => row.name == o) = none := by
      rw [List.find?_eq_none]
      intro a ha
      simpa using hnone a (List.mem_reverse.mp ha)
    simp [introspectEntry, h0]
  · intro r hr
    constructor
    · by_cases hcc : ((r.columns.filter
          fun c => c.clustering_ordinal_position.isSome).map fun c => c.column_name) = []
      · simp [introspectEntry, hr, hcc]
      · simp [introspectEntry, hr, hcc]
    · intro hs
      rw [filterMap_filter_isSome]
      exact hs

/-- Witness for C8: the absent object of a concrete request maps to the
default entry. -/
theorem introspect_dataset_complete_witness :
    List.lookup "u"
        (introspectDataset ["t", "u"]
          [⟨"t", "BASE TABLE",
            [⟨"a", true, none⟩, ⟨"b", false, some 1⟩, ⟨"c", false, some 2⟩]⟩]) =
      some (introspectEntry
        [⟨"t", "BASE TABLE",
          [⟨"a", true, none⟩, ⟨"b", false, some 1⟩, ⟨"c", false, some 2⟩]⟩] "u") :=
  (introspect_dataset_complete ["t", "u"]
    [⟨"t", "BASE TABLE",
      [⟨"a", true, none⟩, ⟨"b", false, some 1⟩, ⟨"c", false, some 2⟩]⟩]
    "u" (by decide)).1

/-- Claim C9 counterexample: a request whose first project group is valid and
whose second carries a non-empty (three-level) project key does fail, but
only after the catalog query for the first group has been issued — the trace
of issued queries at the failure is non-empty. -/
theorem introspect_queries_before_error :
    (introspect "ds0" (fun _ _ => [])
        [("", [("d1", ["t1"])]), ("proj", [("d2", ["t2"])])]).2 =
      Except.error "3 level db objects are not currently supported" ∧
    (introspect "ds0" (fun _ _ => [])
        [("", [("d1", ["t1"])]), ("proj", [("d2", ["t2"])])]).1 =
      [("d1", ["t1"])] ∧
    ([("d1", ["t1"])] : List (String × List String)) ≠ [] := by
  refine ⟨rfl, rfl, by decide⟩

/-- Claim C9 amended: a request containing a non-empty top-level project key
fails with the three-level error; the queries issued before the failure are
exactly those of the (empty-project) groups preceding the first offending
entry — none for the offending group itself or anything after it — so when
the offending entry comes first, no catalog query is issued at all. -/
theorem introspect_three_level_error (df : String)
    (catalog : String → List String → List CatalogRow)
    (pre : List (String × List (String × List String))) (p : String)
    (d : List (String × List String))
    (post : List (String × List (String × List String)))
    (hpre : ∀ x ∈ pre, x.1 = "") (hp : p ≠ "") :
    introspect df catalog (pre ++ (p, d) :: post) =
      ((pre.map fun x => datasetQueries df x.2).flatten,
        Except.error "3 level db objects are not currently supported") := by
  induction pre with
  | nil => simp [introspect, hp]
  | cons x t ih =>
    have hx : x.1 = "" := hpre x (by simp)
    have ht : ∀ y ∈ t, y.1 = "" := fun y hy => hpre y (by simp [hy])
    obtain ⟨x1, x2⟩ := x
    simp only at hx
    subst hx
    simp [introspect, ih ht]

/-- Witness for the amended C9 at a concrete request. -/
theorem introspect_three_level_error_witness :
    introspect "ds0" (fun _ _ => [])
        ([("", [("d1", ["t1"])])] ++ ("proj", [("d2", ["t2"])]) :: []) =
      (([("", [("d1", ["t1"])])].map fun x => datasetQueries "ds0" x.2).flatten,
        Except.error "3 level db objects are not currently supported") :=
  introspect_three_level_error "ds0" (fun _ _ => []) [("", [("d1", ["t1"])])]
    "proj" [("d2", ["t2"])] [] (by decide) (by decide)

/-- Claim C10: the caller-supplied `replace` argument has no effect on the
script — the renderer is always invoked with `replace=True` (line 269). -/
theorem create_table_replace_irrelevant (render : RenderArgs → String)
    (requested : Option DbInfo) (table : String) (schema select : Option String)
    (ddl : DdlArgs) :
    create_table render requested table schema select false ddl =
      create_table render requested table schema select true ddl ∧
    (renderArgs requested table schema select ddl).replace = true :=
  ⟨rfl, rfl⟩

end Sayn
